import Mathlib

/-!
Shallow embedding of the jvs-plugin-jira validation plugin
(pkg/plugin/plugin.go, pkg/plugin/validator.go, pkg/plugin/config.go).

Go error values are modelled by the only two observations this code makes of
them: the rendered message and whether `errors.Is(err, errInvalidJustification)`
holds (the sentinel is preserved through `fmt.Errorf("...%w", err)` and
`errors.Join`).  Network I/O is modelled by passing the remote outcomes in as
arguments; JSON decoding of a response body (Go stdlib `json.Decoder`) is
modelled as an abstract decoding function over the bytes actually fed to it.
-/

namespace JiraPlugin

/-- Model of a Go `error` value as observed by this plugin: the message
produced by `Error()`, and whether the error wraps the sentinel
`errInvalidJustification` (message "invalid justification", per the tests). -/
structure GoError where
  msg : String
  isInvalidJustification : Bool
deriving DecidableEq, Repr

/-- jvspb.Justification: the category and free-text value. -/
structure Justification where
  category : String
  value : String
deriving DecidableEq, Repr

/-- jvspb.ValidateJustificationRequest. -/
structure ValidateJustificationRequest where
  justification : Justification
deriving DecidableEq, Repr

/-- jvspb.ValidateJustificationResponse.  Go zero values (nil slices / nil map)
are modelled as empty lists; the Annotation map is an association list. -/
structure ValidateJustificationResponse where
  valid : Bool
  warning : List String
  error : List String
  annot : List (String × String)
deriving DecidableEq, Repr

/-- Constant jiraCategory in plugin.go. -/
def jiraCategory : String := "jira"

/-- Constant jiraIssueID in plugin.go (annotation-map key). -/
def jiraIssueID : String := "jira_issue_id"

/-- Constant jiraIssueURL in plugin.go (annotation-map key). -/
def jiraIssueURL : String := "jira_issue_url"

/-- invalidErrResponse in plugin.go: validity=false, the message as the sole
hard error string, all other fields left at their zero values. -/
def invalidErrResponse (errStr : String) : ValidateJustificationResponse :=
  { valid := false, warning := [], error := [errStr], annot := [] }

/-- internalErr in plugin.go: `status.Errorf(codes.Internal, "unable to
validate jira issue %q", justificationValue)`.  Not the sentinel. -/
def internalErr (justificationValue : String) : GoError :=
  { msg := "unable to validate jira issue \"" ++ justificationValue ++ "\""
    isInvalidJustification := false }

/-- Match in validator.go: one match result of the jql/match call. -/
structure Match where
  matchedIssues : List Int
  errors : List String
deriving DecidableEq, Repr

/-- MatchResult in validator.go: the full list of match results. -/
structure MatchResult where
  Matches : List Match
deriving DecidableEq, Repr

/-- Rendering of a Go `[]int` by the `%v` verb: "[1234 5678]". -/
def goIntSlice (xs : List Int) : String :=
  "[" ++ String.intercalate " " (xs.map toString) ++ "]"

/-- Go `url.Parse` accepts the strings this plugin meets unless they contain an
ASCII control character; this predicate models that error condition of the
stdlib boundary. -/
def validURLString (s : String) : Bool :=
  s.data.all (fun c => 32 ≤ c.toNat && c.toNat != 127)

/-- Model of Go stdlib `url.JoinPath(base, elems...)` at the inputs this plugin
produces: it fails exactly when the base URL fails to parse, and otherwise
appends the path elements separated by "/" (dropping one trailing slash of the
base, as path cleaning does).  Escaping of exotic path elements and `..`
cleaning are outside the inputs exercised here and are not modelled. -/
def urlJoinPath (base : String) (elems : List String) : Option String :=
  if validURLString base then
    some (String.mk (if base.data.getLast? = some '/' then base.data.dropLast else base.data)
      ++ "/" ++ String.intercalate "/" elems)
  else
    none

/-- validateWithJiraEndpoint in plugin.go, with the outcome of
`j.validator.MatchIssue` passed in as an argument (the `issueMatcher`
interface).  Go's `%q` is modelled as plain double-quoting and `%v` on the
issue slice by `goIntSlice`. -/
def validateWithJiraEndpoint (matchOutcome : Except GoError MatchResult)
    (justificationValue : String) : Except GoError Match :=
  match matchOutcome with
  | .error e =>
      .error { msg := "failed to match justification \"" ++ justificationValue
                 ++ "\" with jira issue: " ++ e.msg
               isInvalidJustification := e.isInvalidJustification }
  | .ok result =>
      -- `len(result.Matches) == 0 || len(result.Matches[0].MatchedIssues) == 0`
      -- short-circuits, so Matches[0] is only read on a non-empty list.
      match result.Matches with
      | [] =>
          .error { msg := "no matched jira issue for justification \""
                     ++ justificationValue ++ "\": invalid justification"
                   isInvalidJustification := true }
      | m0 :: _ =>
          if m0.matchedIssues.length = 0 then
            .error { msg := "no matched jira issue for justification \""
                       ++ justificationValue ++ "\": invalid justification"
                     isInvalidJustification := true }
          else if 1 < m0.matchedIssues.length then
            .error { msg := "ambiguous justification \"" ++ justificationValue
                       ++ "\", multiple matching jira issues are found "
                       ++ goIntSlice m0.matchedIssues ++ ": invalid justification"
                     isInvalidJustification := true }
          else
            .ok m0

/-- Validate in plugin.go (JiraPlugin.Validate), with the plugin's
`issueBaseURL` field and the outcome of the `MatchIssue` call as arguments.
The Go return shape `(*ValidateJustificationResponse, error)` is the pair of
options.  `result.MatchedIssues[0]` is modelled by `headD 0`; the branch is
only reached when validateWithJiraEndpoint returned a match, which guarantees
a singleton list. -/
def Validate (issueBaseURL : String) (matchOutcome : Except GoError MatchResult)
    (req : ValidateJustificationRequest) :
    Option ValidateJustificationResponse × Option GoError :=
  if req.justification.category ≠ jiraCategory then
    (some (invalidErrResponse ("failed to perform validation, expected category \""
        ++ req.justification.category ++ "\" to be \"" ++ jiraCategory ++ "\"")),
     none)
  else if req.justification.value = "" then
    (some (invalidErrResponse "empty justification value"), none)
  else
    match validateWithJiraEndpoint matchOutcome req.justification.value with
    | .error e =>
        if e.isInvalidJustification then
          (some (invalidErrResponse ("invalid jira justification \""
              ++ req.justification.value
              ++ "\", ensure you input a valid jira id for an open issue")),
           none)
        else
          (none, some (internalErr req.justification.value))
    | .ok m =>
        let issueID := toString (m.matchedIssues.headD 0)
        match urlJoinPath issueBaseURL ["browse", req.justification.value] with
        | none => (none, some (internalErr req.justification.value))
        | some issueURL =>
            (some { valid := true
                    warning := m.errors
                    error := []
                    annot := [(jiraIssueID, issueID), (jiraIssueURL, issueURL)] },
             none)

/-- jiraIssue in validator.go: the minimal remote-issue representation. -/
structure jiraIssue where
  Key : String
  ID : String
deriving DecidableEq, Repr

/-- Outcome of one HTTP exchange as seen by makeRequest: either the transport
failed (`httpClient.Do` returned an error), or a response arrived with a
status code and a body (a byte sequence). -/
inductive HTTPOutcome where
  | transportFailure (msg : String)
  | response (statusCode : Nat) (body : List UInt8)
deriving DecidableEq, Repr

/-- jiraResponseSizeLimitBytes in validator.go. -/
def jiraResponseSizeLimitBytes : Nat := 4000000

/-- The bytes `io.LimitReader(resp.Body, jiraResponseSizeLimitBytes)` lets the
JSON decoder consume: at most the first `jiraResponseSizeLimitBytes` bytes of
the body. -/
def limitRead (body : List UInt8) : List UInt8 :=
  body.take jiraResponseSizeLimitBytes

/-- makeRequest in validator.go, for a response value of type `α`.  The stdlib
`json.Decoder.Decode` is modelled by the abstract `decode` argument applied to
exactly the bytes the limit reader yields; `decode` returning `none` stands
for any JSON decoding failure (invalid JSON, wrong shape, or a value cut off
by the size cap).  Status ≥ 500 and transport/decoding failures produce errors
that do not wrap the sentinel; status in [400,500) wraps the sentinel via
`errors.Join(errInvalidJustification, err)`. -/
def makeRequest {α : Type} (decode : List UInt8 → Option α) (reqURL : String)
    (outcome : HTTPOutcome) : Except GoError α :=
  match outcome with
  | .transportFailure m =>
      .error { msg := "failed to make request: " ++ m
               isInvalidJustification := false }
  | .response code body =>
      if 500 ≤ code then
        .error { msg := "failed to make request to " ++ reqURL
                   ++ ", got response code " ++ toString code
                 isInvalidJustification := false }
      else if 400 ≤ code then
        .error { msg := "failed to make request to " ++ reqURL
                   ++ ", got response code " ++ toString code
                   ++ ": invalid justification"
                 isInvalidJustification := true }
      else
        match decode (limitRead body) with
        | none =>
            .error { msg := "failed to decode response"
                     isInvalidJustification := false }
        | some v => .ok v

/-- Validator in validator.go (the HTTP client and basic-auth credentials are
not observable in the embedding beyond the request URLs). -/
structure Validator where
  baseURL : String
  jql : String
  account : String
  apiToken : String
deriving DecidableEq, Repr

/-- URL of the Get Issue call built in Validator.jiraIssue:
`{baseURL}/issue/{issueIDOrKey}?fields=key,id` with the query encoded. -/
def issueRequestURL (v : Validator) (issueIDOrKey : String) : String :=
  v.baseURL ++ "/issue/" ++ issueIDOrKey ++ "?fields=key%2Cid"

/-- URL of the match call built in Validator.matchJQL: `{baseURL}/jql/match`. -/
def matchRequestURL (v : Validator) : String :=
  v.baseURL ++ "/jql/match"

/-- MatchIssue in validator.go: resolve the issue, then evaluate the JQL
filter against it, wrapping any failure with context while preserving the
sentinel classification.  The remote behaviour is passed in: `lookupOutcome`
is the HTTP exchange of the Get Issue call, and `matchOutcome` gives the HTTP
exchange of the jql/match call for the issue the first call resolved. -/
def MatchIssue (v : Validator)
    (decodeIssue : List UInt8 → Option jiraIssue)
    (decodeMatch : List UInt8 → Option MatchResult)
    (lookupOutcome : HTTPOutcome)
    (matchOutcome : jiraIssue → HTTPOutcome)
    (issueKey : String) : Except GoError MatchResult :=
  match makeRequest decodeIssue (issueRequestURL v issueKey) lookupOutcome with
  | .error e =>
      .error { msg := "failed to get jira issue \"" ++ issueKey ++ "\": " ++ e.msg
               isInvalidJustification := e.isInvalidJustification }
  | .ok issue =>
      match makeRequest decodeMatch (matchRequestURL v) (matchOutcome issue) with
      | .error e =>
          .error { msg := "failed to validate jira issue \"" ++ issueKey
                     ++ "\": " ++ e.msg
                   isInvalidJustification := e.isInvalidJustification }
      | .ok result => .ok result

/-- PluginConfig in config.go. -/
structure PluginConfig where
  JIRAEndpoint : String
  Jql : String
  JIRAAccount : String
  APITokenSecretID : String
  DisplayName : String
  Hint : String
deriving DecidableEq, Repr

/-- PluginConfig.Validate in config.go: the messages joined into the returned
error, in source order; the Go function returns a nil error exactly when this
list is empty. -/
def PluginConfig.Validate (cfg : PluginConfig) : List String :=
  (if cfg.JIRAEndpoint = "" then ["empty JIRA_PLUGIN_ENDPOINT"] else [])
  ++ (if cfg.Jql = "" then ["empty JIRA_PLUGIN_JQL"] else [])
  ++ (if cfg.JIRAAccount = "" then ["empty JIRA_PLUGIN_ACCOUNT"] else [])
  ++ (if cfg.APITokenSecretID = "" then ["empty JIRA_PLUGIN_API_TOKEN_SECRET_ID"] else [])
  ++ (if cfg.Hint = "" then ["empty JIRA_PLUGIN_HINT"] else [])

/-- The warning list a caller reads off an optional response (empty when no
response was returned). -/
def respWarnings : Option ValidateJustificationResponse → List String
  | none => []
  | some r => r.warning

/-- An HTTP exchange that makeRequest classifies as unrelated to the caller's
input: transport failure, status ≥ 500, or a JSON-decoding failure of a
success response. -/
def fatalHTTP {α : Type} (decode : List UInt8 → Option α) : HTTPOutcome → Prop
  | .transportFailure _ => True
  | .response code body => 500 ≤ code ∨ (code < 400 ∧ decode (limitRead body) = none)

/-- An HTTP exchange with a status in [400,500), which makeRequest classifies
as an invalid-justification fault. -/
def invalid4xxHTTP : HTTPOutcome → Prop
  | .transportFailure _ => False
  | .response code _ => 400 ≤ code ∧ code < 500

/-- The fixed corrective message of plugin.go for a justification the remote
data rejects. -/
def correctiveMsg (value : String) : String :=
  "invalid jira justification \"" ++ value
    ++ "\", ensure you input a valid jira id for an open issue"

lemma makeRequest_of_fatal {α : Type} (decode : List UInt8 → Option α)
    (u : String) (o : HTTPOutcome) (h : fatalHTTP decode o) :
    ∃ m, makeRequest decode u o = .error { msg := m, isInvalidJustification := false } := by
  cases o with
  | transportFailure m => exact ⟨_, rfl⟩
  | response code body =>
      simp only [fatalHTTP] at h
      rcases h with h5 | ⟨hlt, hdec⟩
      · exact ⟨"failed to make request to " ++ u ++ ", got response code " ++ toString code,
          by simp [makeRequest, h5]⟩
      · have h1 : ¬ 500 ≤ code := by omega
        have h2 : ¬ 400 ≤ code := by omega
        exact ⟨"failed to decode response", by simp [makeRequest, h1, h2, hdec]⟩

lemma makeRequest_of_invalid4xx {α : Type} (decode : List UInt8 → Option α)
    (u : String) (o : HTTPOutcome) (h : invalid4xxHTTP o) :
    ∃ m, makeRequest decode u o = .error { msg := m, isInvalidJustification := true } := by
  cases o with
  | transportFailure m => exact absurd h (by simp [invalid4xxHTTP])
  | response code body =>
      simp only [invalid4xxHTTP] at h
      have h1 : ¬ 500 ≤ code := by omega
      exact ⟨"failed to make request to " ++ u ++ ", got response code " ++ toString code
          ++ ": invalid justification",
        by simp [makeRequest, h1, h.1]⟩

lemma Validate_error_flag_false (base : String) (req : ValidateJustificationRequest)
    (e : GoError) (hc : req.justification.category = jiraCategory)
    (hv : ¬ req.justification.value = "") (hflag : e.isInvalidJustification = false) :
    Validate base (.error e) req = (none, some (internalErr req.justification.value)) := by
  simp [Validate, hc, hv, validateWithJiraEndpoint, hflag]

lemma Validate_error_flag_true (base : String) (req : ValidateJustificationRequest)
    (e : GoError) (hc : req.justification.category = jiraCategory)
    (hv : ¬ req.justification.value = "") (hflag : e.isInvalidJustification = true) :
    Validate base (.error e) req
      = (some (invalidErrResponse (correctiveMsg req.justification.value)), none) := by
  simp [Validate, hc, hv, validateWithJiraEndpoint, hflag, correctiveMsg]

lemma Validate_ok_first_match_empty (base : String) (req : ValidateJustificationRequest)
    (r : MatchResult) (m0 : Match) (rest : List Match)
    (hc : req.justification.category = jiraCategory) (hv : ¬ req.justification.value = "")
    (hm : r.Matches = m0 :: rest) (hzero : m0.matchedIssues = []) :
    Validate base (.ok r) req
      = (some (invalidErrResponse (correctiveMsg req.justification.value)), none) := by
  simp [Validate, hc, hv, validateWithJiraEndpoint, hm, hzero, correctiveMsg]

/-- C3: a request whose category is not "jira", or whose value is empty, is
rejected locally: the result is a validity=false response carrying the
explanatory message, the Go error is nil, and the result does not depend on
the MatchIssue outcome, so the network path is never consulted. -/
theorem validate_local_reject (base : String)
    (mo mo' : Except GoError MatchResult) (req : ValidateJustificationRequest)
    (h : req.justification.category ≠ jiraCategory ∨ req.justification.value = "") :
    Validate base mo req = Validate base mo' req ∧
    Validate base mo req
      = (some (invalidErrResponse
          (if req.justification.category = jiraCategory then "empty justification value"
           else "failed to perform validation, expected category \""
             ++ req.justification.category ++ "\" to be \"" ++ jiraCategory ++ "\"")),
         none) := by
  by_cases hc : req.justification.category = jiraCategory
  · have hv : req.justification.value = "" := by
      rcases h with h | h
      · exact absurd hc h
      · exact h
    constructor <;> simp [Validate, hc, hv]
  · constructor <;> simp [Validate, hc]

/-- Witness for C3 at a concrete request of the wrong category. -/
theorem validate_local_reject_witness :
    Validate "https://example.atlassian.net"
        (.ok { Matches := [{ matchedIssues := [1234], errors := [] }] })
        { justification := { category := "github", value := "ABCD" } }
      = (some (invalidErrResponse
          "failed to perform validation, expected category \"github\" to be \"jira\""),
         none) := by
  have h := validate_local_reject "https://example.atlassian.net"
    (.ok { Matches := [{ matchedIssues := [1234], errors := [] }] })
    (.error { msg := "x", isInvalidJustification := false })
    { justification := { category := "github", value := "ABCD" } }
    (Or.inl (by decide))
  simpa using h.2

/-- C9: a successful MatchResult whose Matches list is empty is handled
without any out-of-bounds access: Validate returns validity=false with the
same corrective message as the zero-matched-issues case, and a nil error. -/
theorem validate_empty_matches_safe (base v : String) (mr : MatchResult)
    (hv : v ≠ "") (hm : mr.Matches = []) :
    Validate base (.ok mr) { justification := { category := jiraCategory, value := v } }
      = (some (invalidErrResponse (correctiveMsg v)), none) := by
  simp [Validate, hv, validateWithJiraEndpoint, hm, correctiveMsg]

/-- Witness for C9 mirroring the empty_matches test case. -/
theorem validate_empty_matches_safe_witness :
    Validate "https://example.atlassian.net" (.ok { Matches := [] })
        { justification := { category := jiraCategory, value := "ABCD" } }
      = (some (invalidErrResponse (correctiveMsg "ABCD")), none) :=
  validate_empty_matches_safe "https://example.atlassian.net" "ABCD"
    { Matches := [] } (by decide) rfl

/-- C10: every Validate result is exactly one of a non-nil response with nil
error, or a nil response with a non-nil error. -/
theorem validate_disjoint_sum (base : String) (mo : Except GoError MatchResult)
    (req : ValidateJustificationRequest) :
    (∃ r, Validate base mo req = (some r, none)) ∨
    (∃ e, Validate base mo req = (none, some e)) := by
  unfold Validate
  split
  · exact Or.inl ⟨_, rfl⟩
  · split
    · exact Or.inl ⟨_, rfl⟩
    · split
      · split
        · exact Or.inl ⟨_, rfl⟩
        · exact Or.inr ⟨_, rfl⟩
      · split
        · exact Or.inr ⟨_, rfl⟩
        · exact Or.inl ⟨_, rfl⟩

/-- C4: when the request passes the local checks and either remote exchange
fails in a way makeRequest does not classify as an invalid justification
(status ≥ 500, transport failure, or a JSON-decoding failure), Validate
returns a nil response together with the non-nil internal error, so the
caller can tell "unable to determine validity" from a validity=false
response. -/
theorem validate_fatal_on_unclassified (base : String) (v : Validator)
    (dI : List UInt8 → Option jiraIssue) (dM : List UInt8 → Option MatchResult)
    (o₁ : HTTPOutcome) (o₂ : jiraIssue → HTTPOutcome)
    (req : ValidateJustificationRequest)
    (hc : req.justification.category = jiraCategory)
    (hv : req.justification.value ≠ "")
    (hf : fatalHTTP dI o₁ ∨
      (∃ issue, makeRequest dI (issueRequestURL v req.justification.value) o₁ = .ok issue
        ∧ fatalHTTP dM (o₂ issue))) :
    Validate base (MatchIssue v dI dM o₁ o₂ req.justification.value) req
      = (none, some (internalErr req.justification.value)) := by
  rcases hf with hfat | ⟨issue, hok, hfat⟩
  · obtain ⟨m, hmk⟩ := makeRequest_of_fatal dI (issueRequestURL v req.justification.value) o₁ hfat
    have hmi : MatchIssue v dI dM o₁ o₂ req.justification.value
        = .error { msg := "failed to get jira issue \"" ++ req.justification.value
                     ++ "\": " ++ m
                   isInvalidJustification := false } := by
      simp [MatchIssue, hmk]
    rw [hmi]
    exact Validate_error_flag_false base req _ hc hv rfl
  · obtain ⟨m, hmk⟩ := makeRequest_of_fatal dM (matchRequestURL v) (o₂ issue) hfat
    have hmi : MatchIssue v dI dM o₁ o₂ req.justification.value
        = .error { msg := "failed to validate jira issue \"" ++ req.justification.value
                     ++ "\": " ++ m
                   isInvalidJustification := false } := by
      simp [MatchIssue, hok, hmk]
    rw [hmi]
    exact Validate_error_flag_false base req _ hc hv rfl

/-- Witness for C4: the Get Issue call answers with HTTP 500. -/
theorem validate_fatal_on_unclassified_witness :
    Validate "https://example.atlassian.net"
        (MatchIssue { baseURL := "https://x", jql := "q", account := "a", apiToken := "t" }
          (fun _ => some { Key := "ABCD", ID := "1234" })
          (fun _ => some { Matches := [{ matchedIssues := [1234], errors := [] }] })
          (.response 500 []) (fun _ => .response 200 []) "ABCD")
        { justification := { category := "jira", value := "ABCD" } }
      = (none, some (internalErr "ABCD")) :=
  validate_fatal_on_unclassified "https://example.atlassian.net"
    { baseURL := "https://x", jql := "q", account := "a", apiToken := "t" }
    (fun _ => some { Key := "ABCD", ID := "1234" })
    (fun _ => some { Matches := [{ matchedIssues := [1234], errors := [] }] })
    (.response 500 []) (fun _ => .response 200 [])
    { justification := { category := "jira", value := "ABCD" } }
    rfl (by decide) (Or.inl (Or.inl (by decide)))

/-- C5: a 4xx status from either remote call, and a successful match result
whose first Match carries zero matched issues, all lead to the same
validity=false response with the corrective message and a nil error. -/
theorem validate_invalid_input_uniform (base : String) (v : Validator)
    (dI : List UInt8 → Option jiraIssue) (dM : List UInt8 → Option MatchResult)
    (o₁ : HTTPOutcome) (o₂ : jiraIssue → HTTPOutcome)
    (req : ValidateJustificationRequest)
    (hc : req.justification.category = jiraCategory)
    (hv : req.justification.value ≠ "")
    (hf : invalid4xxHTTP o₁ ∨
      (∃ issue, makeRequest dI (issueRequestURL v req.justification.value) o₁ = .ok issue
        ∧ invalid4xxHTTP (o₂ issue)) ∨
      (∃ r m0 rest, MatchIssue v dI dM o₁ o₂ req.justification.value = .ok r
        ∧ r.Matches = m0 :: rest ∧ m0.matchedIssues = [])) :
    Validate base (MatchIssue v dI dM o₁ o₂ req.justification.value) req
      = (some (invalidErrResponse (correctiveMsg req.justification.value)), none) := by
  rcases hf with h4 | ⟨issue, hok, h4⟩ | ⟨r, m0, rest, hok, hm, hzero⟩
  · obtain ⟨m, hmk⟩ := makeRequest_of_invalid4xx dI (issueRequestURL v req.justification.value) o₁ h4
    have hmi : MatchIssue v dI dM o₁ o₂ req.justification.value
        = .error { msg := "failed to get jira issue \"" ++ req.justification.value
                     ++ "\": " ++ m
                   isInvalidJustification := true } := by
      simp [MatchIssue, hmk]
    rw [hmi]
    exact Validate_error_flag_true base req _ hc hv rfl
  · obtain ⟨m, hmk⟩ := makeRequest_of_invalid4xx dM (matchRequestURL v) (o₂ issue) h4
    have hmi : MatchIssue v dI dM o₁ o₂ req.justification.value
        = .error { msg := "failed to validate jira issue \"" ++ req.justification.value
                     ++ "\": " ++ m
                   isInvalidJustification := true } := by
      simp [MatchIssue, hok, hmk]
    rw [hmi]
    exact Validate_error_flag_true base req _ hc hv rfl
  · rw [hok]
    exact Validate_ok_first_match_empty base req r m0 rest hc hv hm hzero

/-- Witness for C5: the Get Issue call answers with HTTP 404 (issue not
found). -/
theorem validate_invalid_input_uniform_witness :
    Validate "https://example.atlassian.net"
        (MatchIssue { baseURL := "https://x", jql := "q", account := "a", apiToken := "t" }
          (fun _ => some { Key := "ABCD", ID := "1234" })
          (fun _ => some { Matches := [{ matchedIssues := [1234], errors := [] }] })
          (.response 404 []) (fun _ => .response 200 []) "ABCD")
        { justification := { category := "jira", value := "ABCD" } }
      = (some (invalidErrResponse (correctiveMsg "ABCD")), none) :=
  validate_invalid_input_uniform "https://example.atlassian.net"
    { baseURL := "https://x", jql := "q", account := "a", apiToken := "t" }
    (fun _ => some { Key := "ABCD", ID := "1234" })
    (fun _ => some { Matches := [{ matchedIssues := [1234], errors := [] }] })
    (.response 404 []) (fun _ => .response 200 [])
    { justification := { category := "jira", value := "ABCD" } }
    rfl (by decide) (Or.inl (by exact ⟨by omega, by omega⟩))

/-- C6: a "jira" request with non-empty value whose MatchIssue call succeeds
with exactly one matched issue yields a validity=true response with a nil
error, whose annotation map carries the matched identifier rendered in
decimal and the URL obtained by joining the configured browse base, the fixed
segment "browse", and the input key. -/
theorem validate_single_match_happy (base v : String) (mr : MatchResult)
    (m0 : Match) (rest : List Match) (i : Int)
    (hm : mr.Matches = m0 :: rest) (hi : m0.matchedIssues = [i]) (hv : v ≠ "")
    (hbase : validURLString base = true) (hslash : base.data.getLast? ≠ some '/') :
    Validate base (.ok mr) { justification := { category := jiraCategory, value := v } }
      = (some { valid := true
                warning := m0.errors
                error := []
                annot := [(jiraIssueID, toString i),
                          (jiraIssueURL, base ++ "/browse/" ++ v)] },
         none) := by
  have hurl : urlJoinPath base ["browse", v] = some (base ++ "/browse/" ++ v) := by
    simp only [urlJoinPath, hbase, if_pos, if_neg hslash, ite_true]
    congr 1
    have hb : String.mk base.data = base := by cases base; rfl
    rw [hb]
    apply String.ext
    simp [String.data_append, String.intercalate, String.intercalate.go]
  simp [Validate, hv, validateWithJiraEndpoint, hm, hi, hurl]

/-- Witness for C6 mirroring the happy_path test case: issue id 1234, key
"ABCD", browse base "https://example.atlassian.net". -/
theorem validate_single_match_happy_witness :
    Validate "https://example.atlassian.net"
        (.ok { Matches := [{ matchedIssues := [1234], errors := [] }] })
        { justification := { category := jiraCategory, value := "ABCD" } }
      = (some { valid := true
                warning := []
                error := []
                annot := [(jiraIssueID, "1234"),
                          (jiraIssueURL, "https://example.atlassian.net/browse/ABCD")] },
         none) := by
  have h := validate_single_match_happy "https://example.atlassian.net" "ABCD"
    { Matches := [{ matchedIssues := [1234], errors := [] }] }
    { matchedIssues := [1234], errors := [] } [] 1234
    rfl rfl (by decide) (by decide) (by decide)
  exact h

/-- C8: the JSON decoder only ever sees the first jiraResponseSizeLimitBytes
bytes of a response body; makeRequest on a success status consults exactly
that capped prefix, and when decoding it fails (not valid JSON of the
expected shape, or a value cut off by the cap) MatchIssue returns a decoding
error instead of any partial result. -/
theorem makeRequest_size_cap (body : List UInt8) :
    (limitRead body).length ≤ jiraResponseSizeLimitBytes ∧
    (∀ (α : Type) (decode : List UInt8 → Option α) (u : String) (code : Nat),
      code < 400 →
      makeRequest decode u (.response code body)
        = match decode (limitRead body) with
          | none => .error { msg := "failed to decode response"
                             isInvalidJustification := false }
          | some a => .ok a) ∧
    (∀ (v : Validator) (dI : List UInt8 → Option jiraIssue)
       (dM : List UInt8 → Option MatchResult) (o₂ : jiraIssue → HTTPOutcome)
       (key : String) (code : Nat),
      code < 400 → dI (limitRead body) = none →
      MatchIssue v dI dM (.response code body) o₂ key
        = .error { msg := "failed to get jira issue \"" ++ key
                     ++ "\": " ++ "failed to decode response"
                   isInvalidJustification := false }) := by
  refine ⟨?_, ?_, ?_⟩
  · simp only [limitRead, List.length_take]
    exact Nat.min_le_left jiraResponseSizeLimitBytes body.length
  · intro α decode u code hcode
    have h1 : ¬ 500 ≤ code := by omega
    have h2 : ¬ 400 ≤ code := by omega
    simp [makeRequest, h1, h2]
  · intro v dI dM o₂ key code hcode hdec
    have h1 : ¬ 500 ≤ code := by omega
    have h2 : ¬ 400 ≤ code := by omega
    simp [MatchIssue, makeRequest, h1, h2, hdec]

/-- Witness for C8: a five-byte body that fails to decode makes MatchIssue
fail with the decoding error. -/
theorem makeRequest_size_cap_witness :
    MatchIssue { baseURL := "https://x", jql := "q", account := "a", apiToken := "t" }
        (fun _ => none)
        (fun _ => some { Matches := [{ matchedIssues := [1234], errors := [] }] })
        (.response 200 [0, 1, 2, 3, 4]) (fun _ => .response 200 []) "ABCD"
      = .error { msg := "failed to get jira issue \"ABCD\": failed to decode response"
                 isInvalidJustification := false } :=
  (makeRequest_size_cap [0, 1, 2, 3, 4]).2.2
    { baseURL := "https://x", jql := "q", account := "a", apiToken := "t" }
    (fun _ => none)
    (fun _ => some { Matches := [{ matchedIssues := [1234], errors := [] }] })
    (fun _ => .response 200 []) "ABCD" 200 (by omega) rfl

/-- Counterexample to C1: with matched issues [1234, 5678] the response is
validity=false with a nil error as claimed, but its sole error message is the
fixed corrective string, which contains no digit at all — so it neither
mentions ambiguity nor lists the matched identifiers. -/
theorem validate_multi_match_counterexample :
    Validate "https://example.atlassian.net"
        (.ok { Matches := [{ matchedIssues := [1234, 5678], errors := [] }] })
        { justification := { category := "jira", value := "ABCD" } }
      = (some { valid := false
                warning := []
                error := ["invalid jira justification \"ABCD\", ensure you input a valid jira id for an open issue"]
                annot := [] },
         none)
    ∧ ("invalid jira justification \"ABCD\", ensure you input a valid jira id for an open issue").data.all
        (fun c => !c.isDigit) = true := by
  exact ⟨by decide, by decide⟩

/-- C1 as amended: with more than one matched issue, Validate returns
validity=false with a nil error, but the response carries the fixed
corrective message; the ambiguity message that lists the matched identifiers
is only the internal error of validateWithJiraEndpoint (which Validate logs
and then discards). -/
theorem validate_multi_match_generic (base v : String) (mr : MatchResult)
    (m0 : Match) (rest : List Match)
    (hm : mr.Matches = m0 :: rest) (hlen : 1 < m0.matchedIssues.length) (hv : v ≠ "") :
    Validate base (.ok mr) { justification := { category := jiraCategory, value := v } }
      = (some (invalidErrResponse (correctiveMsg v)), none)
    ∧ validateWithJiraEndpoint (.ok mr) v
      = .error { msg := "ambiguous justification \"" ++ v
                   ++ "\", multiple matching jira issues are found "
                   ++ goIntSlice m0.matchedIssues ++ ": invalid justification"
                 isInvalidJustification := true } := by
  have hne : ¬ m0.matchedIssues.length = 0 := by omega
  have hamb : validateWithJiraEndpoint (.ok mr) v
      = .error { msg := "ambiguous justification \"" ++ v
                   ++ "\", multiple matching jira issues are found "
                   ++ goIntSlice m0.matchedIssues ++ ": invalid justification"
                 isInvalidJustification := true } := by
    simp [validateWithJiraEndpoint, hm, hne, hlen]
  refine ⟨?_, hamb⟩
  simp [Validate, hv, hamb, correctiveMsg]

/-- Witness for the amended C1 at the multiple_matches test input. -/
theorem validate_multi_match_generic_witness :
    Validate "https://example.atlassian.net"
        (.ok { Matches := [{ matchedIssues := [1234, 5678, 6784], errors := [] }] })
        { justification := { category := jiraCategory, value := "ABCD" } }
      = (some (invalidErrResponse (correctiveMsg "ABCD")), none)
    ∧ validateWithJiraEndpoint
        (.ok { Matches := [{ matchedIssues := [1234, 5678, 6784], errors := [] }] }) "ABCD"
      = .error { msg := "ambiguous justification \"ABCD\", multiple matching jira issues are found [1234 5678 6784]: invalid justification"
                 isInvalidJustification := true } := by
  have h := validate_multi_match_generic "https://example.atlassian.net" "ABCD"
    { Matches := [{ matchedIssues := [1234, 5678, 6784], errors := [] }] }
    { matchedIssues := [1234, 5678, 6784], errors := [] } []
    rfl (by decide) (by decide)
  exact h

/-- Counterexample to C2: a successful MatchIssue result whose inspected
Match carries zero matched issues and a non-empty warning list produces a
response whose warning list is empty — the warnings are not forwarded in the
validity=false branch. -/
theorem validate_warnings_dropped_counterexample :
    Validate "https://example.atlassian.net"
        (.ok { Matches := [{ matchedIssues := [], errors := ["remote filter warning"] }] })
        { justification := { category := "jira", value := "ABCD" } }
      = (some { valid := false
                warning := []
                error := ["invalid jira justification \"ABCD\", ensure you input a valid jira id for an open issue"]
                annot := [] },
         none)
    ∧ ["remote filter warning"] ≠ ([] : List String) := by
  exact ⟨by decide, by decide⟩

/-- C2 as amended: the warnings on the inspected Match reach the response's
warning list only in the exactly-one-match (validity=true) branch; in the
zero-match and multi-match branches the returned response carries an empty
warning list. -/
theorem validate_warning_only_when_valid (base v : String) (mr : MatchResult)
    (m0 : Match) (rest : List Match)
    (hm : mr.Matches = m0 :: rest) (hv : v ≠ "")
    (hbase : validURLString base = true) :
    respWarnings (Validate base (.ok mr)
        { justification := { category := jiraCategory, value := v } }).1
      = if m0.matchedIssues.length = 1 then m0.errors else [] := by
  match hi : m0.matchedIssues with
  | [] =>
      simp [Validate, hv, validateWithJiraEndpoint, hm, hi, respWarnings, invalidErrResponse]
  | [i] =>
      simp [Validate, hv, validateWithJiraEndpoint, hm, hi, urlJoinPath, hbase, respWarnings]
  | i :: j :: tl =>
      have hlen : 1 < m0.matchedIssues.length := by rw [hi]; simp
      have hne : ¬ m0.matchedIssues.length = 0 := by omega
      have hnot1 : ¬ m0.matchedIssues.length = 1 := by rw [hi]; simp
      simp [Validate, hv, validateWithJiraEndpoint, hm, hne, hlen, hnot1, respWarnings,
        invalidErrResponse]

/-- Witness for the amended C2: in the valid branch the warning list is the
match's warning list. -/
theorem validate_warning_only_when_valid_witness :
    respWarnings (Validate "https://example.atlassian.net"
        (.ok { Matches := [{ matchedIssues := [1234], errors := ["w1", "w2"] }] })
        { justification := { category := jiraCategory, value := "ABCD" } }).1
      = ["w1", "w2"] := by
  have h := validate_warning_only_when_valid "https://example.atlassian.net" "ABCD"
    { Matches := [{ matchedIssues := [1234], errors := ["w1", "w2"] }] }
    { matchedIssues := [1234], errors := ["w1", "w2"] } []
    rfl (by decide) (by decide)
  simpa using h

/-- Counterexample to C7: a configuration with all four of endpoint, JQL,
account and credential reference non-empty but an empty hint is still
rejected by PluginConfig.Validate. -/
theorem config_validate_hint_counterexample :
    PluginConfig.Validate
        { JIRAEndpoint := "https://x.atlassian.net/rest/api/3"
          Jql := "project = JVS"
          JIRAAccount := "abc@xyz.com"
          APITokenSecretID := "projects/p/secrets/s/versions/1"
          DisplayName := "Jira Issue Key"
          Hint := "" }
      = ["empty JIRA_PLUGIN_HINT"]
    ∧ (["empty JIRA_PLUGIN_HINT"] : List String) ≠ [] := by
  exact ⟨by decide, by decide⟩

/-- C7 as amended: PluginConfig.Validate rejects a configuration exactly when
the endpoint, the JQL filter, the account, the credential reference, or the
hint is empty; the display name never influences the outcome (it is the one
display field with a default in ToFlags). -/
theorem config_validate_iff (cfg : PluginConfig) :
    (PluginConfig.Validate cfg ≠ []
      ↔ (cfg.JIRAEndpoint = "" ∨ cfg.Jql = "" ∨ cfg.JIRAAccount = ""
          ∨ cfg.APITokenSecretID = "" ∨ cfg.Hint = ""))
    ∧ (∀ d, PluginConfig.Validate { cfg with DisplayName := d }
        = PluginConfig.Validate cfg) := by
  constructor
  · unfold PluginConfig.Validate
    by_cases h1 : cfg.JIRAEndpoint = "" <;>
      by_cases h2 : cfg.Jql = "" <;>
        by_cases h3 : cfg.JIRAAccount = "" <;>
          by_cases h4 : cfg.APITokenSecretID = "" <;>
            by_cases h5 : cfg.Hint = "" <;>
              simp [h1, h2, h3, h4, h5]
  · intro d
    unfold PluginConfig.Validate
    rfl

end JiraPlugin
